import Mathlib

/-!
Shallow embedding of `flask_apscheduler/scheduler.py` (class `APScheduler`):
the scheduler facade, its host-name start gate, job-definition
normalization, and configuration/predeclared-job loading.

The delegated engine (`BackgroundScheduler`) is an external collaborator;
it is modelled as a small record capturing exactly the capability surface
the facade uses: `configure`, `add_job`, `get_job`, `modify_job`, `start`.
Python truthiness is modelled explicitly (`Prim.truthy`, `Value.truthy`,
`ConfigValue.truthy`).
-/

set_option autoImplicit false

namespace FlaskAPScheduler

/-- Primitive Python values appearing in job keyword arguments and
configuration entries. -/
inductive Prim where
  | pstr (s : String)
  | pnat (n : Nat)
  | pbool (b : Bool)
  | pnone
  deriving DecidableEq, Repr

/-- Python truthiness of a primitive value: `""`, `0`, `False` and `None`
are falsy. -/
def Prim.truthy : Prim → Bool
  | .pstr s => decide (s ≠ "")
  | .pnat n => decide (n ≠ 0)
  | .pbool b => b
  | .pnone => false

/-- A job-kwargs value: either a primitive, or a structured trigger
descriptor (discriminator string plus field mapping), the form the engine
expects for a trigger. -/
inductive Value where
  | prim (p : Prim)
  | trig (typ : String) (fields : List (String × Prim))
  deriving DecidableEq, Repr

/-- Python truthiness of a kwargs value; structured objects are truthy. -/
def Value.truthy : Value → Bool
  | .prim p => p.truthy
  | .trig _ _ => true

/-- Whether a kwargs value is a primitive (not a structured trigger). -/
def Value.isPrim : Value → Bool
  | .prim _ => true
  | .trig _ _ => false

/-- A keyword-argument mapping, ordered as in the Python dict. -/
abbrev Kwargs := List (String × Value)

/-- `dict.get(k)`: first binding of `k`, or `none` when absent. -/
def lookupKw (kw : Kwargs) (k : String) : Option Value :=
  match kw.find? (fun kv => kv.1 == k) with
  | some kv => some kv.2
  | none => none

/-- `dict.get(k)` returning Python `None` when the key is absent. -/
def Kwargs.getd (kw : Kwargs) (k : String) : Value :=
  match lookupKw kw k with
  | some v => v
  | none => Value.prim Prim.pnone

/-- Python `a or b`. -/
def pyOr (a b : Value) : Value :=
  if a.truthy then a else b

/-- All bindings except those under key `k`. -/
def removeKey (kw : Kwargs) (k : String) : Kwargs :=
  kw.filter (fun kv => kv.1 != k)

/-- The primitive-valued bindings of a kwargs mapping. -/
def primFields : Kwargs → List (String × Prim)
  | [] => []
  | (k, Value.prim p) :: rest => (k, p) :: primFields rest
  | (_, Value.trig _ _) :: rest => primFields rest

/-- Re-embed primitive bindings as kwargs bindings. -/
def primWrap (fs : List (String × Prim)) : Kwargs :=
  fs.map (fun kv => (kv.1, Value.prim kv.2))

/-- Modelled from the spec: `fix_job_def` (defined in
`flask_apscheduler/utils.py`, a file absent from this snapshot; only its
call sites in `scheduler.py` are present). Per the spec, when the
`"trigger"` key holds a plain string, the mapping is rewritten so that the
trigger becomes the structured form whose discriminator is that string and
whose fields are the other top-level keys of the mapping, which are
consumed into the structure; when `"trigger"` is absent or already a
non-string structured value, the mapping is returned unmodified. -/
def fix_job_def (kw : Kwargs) : Kwargs :=
  match lookupKw kw "trigger" with
  | some (Value.prim (Prim.pstr t)) =>
      [("trigger", Value.trig t (primFields (removeKey kw "trigger")))]
  | _ => kw

/-- Whether the mapping's `"trigger"` key holds a plain string — the
condition under which `fix_job_def` rewrites the mapping. -/
def hasStrTrigger (kw : Kwargs) : Bool :=
  match lookupKw kw "trigger" with
  | some (Value.prim (Prim.pstr _)) => true
  | _ => false

/-- A job record as held by the delegated engine: identifier, display
name, callable reference, the positional/keyword arguments stored for the
callable, and the normalized scheduler kwargs (`defn`). -/
structure Job where
  id : String
  name : Value
  func : Value
  args : List Prim
  kwargs : List (String × Prim)
  defn : Kwargs
  deriving DecidableEq, Repr

/-- A record of one synchronous invocation of a job's callable. -/
structure Call where
  func : Value
  args : List Prim
  kwargs : List (String × Prim)
  deriving DecidableEq, Repr

/-- One predeclared job entry from configuration: the arguments that
`add_job(**job)` receives. -/
structure JobEntry where
  id : String
  func : Value
  kwargs : Kwargs
  deriving DecidableEq, Repr

/-- A configuration value from the Flask application's config mapping. -/
inductive ConfigValue where
  | prim (p : Prim)
  | dict (entries : List (String × Prim))
  | hosts (hs : List String)
  | jobList (js : List JobEntry)
  deriving DecidableEq, Repr

/-- Python truthiness of a configuration value (empty collections are
falsy). -/
def ConfigValue.truthy : ConfigValue → Bool
  | .prim p => p.truthy
  | .dict es => decide (es ≠ [])
  | .hosts hs => decide (hs ≠ [])
  | .jobList js => decide (js ≠ [])

/-- The Flask application's configuration mapping. -/
abbrev Config := List (String × ConfigValue)

/-- `config.get(k)`. -/
def Config.getv (cfg : Config) (k : String) : Option ConfigValue :=
  match cfg.find? (fun kv => kv.1 == k) with
  | some kv => some kv.2
  | none => none

/-- `config.get(k)` followed by a Python truthiness test: `some v` exactly
when the key is present with a truthy value (the pattern
`x = config.get(K)` / `if x:` used by `__load_config` and `__load_jobs`). -/
def truthyGet (cfg : Config) (k : String) : Option ConfigValue :=
  match Config.getv cfg k with
  | some v => if v.truthy then some v else none
  | none => none

/-- The error taxonomy of the facade (spec section 7): `argumentError` for
missing id/func, `lookupError` for a missing job, `typeConfigError` for an
incompatible host-application handle, and `typeError` for the Python
call-protocol failure raised at the engine call site when a keyword is
passed twice. -/
inductive SchedError where
  | argumentError (msg : String)
  | lookupError (id : String)
  | typeConfigError (msg : String)
  | typeError (msg : String)
  deriving DecidableEq, Repr

/-- The duplicate-keyword message Python raises when `add_job` forwards
`name=name, **kwargs` and the kwargs still carry a `name` binding. -/
def dupNameMsg : String := "add_job got multiple values for keyword argument name"

/-- The delegated scheduling engine (`BackgroundScheduler`), modelled by
the capability surface the facade uses. `startCalls` counts invocations
of the engine's `start`; `options` holds the keyword options last passed
to `configure`. -/
structure Engine where
  jobs : List Job
  startCalls : Nat
  running : Bool
  options : List (String × ConfigValue)
  deriving DecidableEq, Repr

/-- `scheduler.start()`. -/
def Engine.start (e : Engine) : Engine :=
  { e with startCalls := e.startCalls + 1, running := true }

/-- `scheduler.configure(**options)`. -/
def Engine.configure (e : Engine) (opts : List (String × ConfigValue)) : Engine :=
  { e with options := opts }

/-- `scheduler.get_job(id, jobstore)`: the first job with the given
identifier (job stores are not distinguished in the model; the facade
always forwards the jobstore argument unchanged). -/
def Engine.get_job (e : Engine) (id : String) (_jobstore : Option String) : Option Job :=
  e.jobs.find? (fun j => j.id == id)

/-- `scheduler.add_job(func, id=id, name=name, **kwargs)`: creates the job
record and appends it, returning the created job. -/
def Engine.add_job (e : Engine) (func : Value) (id : String) (name : Value)
    (kwargs : Kwargs) : Engine × Job :=
  let job : Job :=
    { id := id, name := name, func := func, args := [], kwargs := [], defn := kwargs }
  ({ e with jobs := e.jobs ++ [job] }, job)

/-- `scheduler.modify_job(id, jobstore, **changes)`: merge the changes
into the matching job's definition. -/
def Engine.modify_job (e : Engine) (id : String) (_jobstore : Option String)
    (changes : Kwargs) : Engine :=
  { e with jobs := e.jobs.map (fun j => if j.id == id then { j with defn := j.defn ++ changes } else j) }

/-- The facade's state: the engine handle plus the fields set in
`APScheduler.__init__` (`allowed_hosts` defaults to `["*"]`, `host_name`
is resolved once at construction, `views_enabled` defaults to false) and
the bound Flask application. `routesRegistered` records whether
`__load_views` ran. -/
structure SchedulerState where
  engine : Engine
  allowed_hosts : List String
  host_name : String
  views_enabled : Bool
  app : Option Config
  routesRegistered : Bool
  deriving DecidableEq, Repr

/-- The log message of `start` when the allow-list is empty. -/
def emptyHostsMsg : String := "No server allowed to start the scheduler."

/-- The log message of `start` when the host is not allowed. -/
def notAllowedMsg (s : SchedulerState) : String :=
  "Host name " ++ s.host_name ++ " is not allowed to start the APScheduler. Servers allowed: "
    ++ String.intercalate "," s.allowed_hosts

namespace APScheduler

/-- `APScheduler.start`: the host gate. Logs when the allow-list is
empty; returns without starting when `host_name` is not in
`allowed_hosts` and `"*"` is not in `allowed_hosts`; otherwise invokes the
engine's start. The second component is the list of emitted log
messages. -/
def start (s : SchedulerState) : SchedulerState × List String :=
  let logs : List String := if s.allowed_hosts = [] then [emptyHostsMsg] else []
  if s.host_name ∉ s.allowed_hosts ∧ "*" ∉ s.allowed_hosts then
    (s, logs ++ [notAllowedMsg s])
  else
    ({ s with engine := s.engine.start }, logs)

/-- `APScheduler.add_job(id, func, **kwargs)`: validates id and func
(Python truthiness), computes `name = kwargs.get('name') or id` (reading
`name` without removing it from the kwargs), normalizes the kwargs with
`fix_job_def`, then calls `scheduler.add_job(func, id=id, name=name,
**kwargs)`. When the normalized kwargs still carry a `name` binding, that
call passes the `name` keyword twice and Python raises `TypeError` at the
call site, before the engine runs. On any failure the state is returned
unchanged with the error. -/
def add_job (s : SchedulerState) (id : String) (func : Value) (kwargs : Kwargs) :
    SchedulerState × Except SchedError Job :=
  if id = "" then
    (s, Except.error (SchedError.argumentError "Argument id cannot be None."))
  else if func.truthy = false then
    (s, Except.error (SchedError.argumentError "Argument func cannot be None."))
  else
    let name := pyOr (Kwargs.getd kwargs "name") (Value.prim (Prim.pstr id))
    let kwargs2 := fix_job_def kwargs
    if (lookupKw kwargs2 "name").isSome then
      (s, Except.error (SchedError.typeError dupNameMsg))
    else
      let r := s.engine.add_job func id name kwargs2
      ({ s with engine := r.1 }, Except.ok r.2)

/-- `APScheduler.modify_job(id, jobstore, **kwargs)`: validates id,
normalizes kwargs, delegates to the engine, then returns the looked-up
job. On a validation failure the state is returned unchanged. -/
def modify_job (s : SchedulerState) (id : String) (jobstore : Option String)
    (kwargs : Kwargs) : SchedulerState × Except SchedError (Option Job) :=
  if id = "" then
    (s, Except.error (SchedError.argumentError "Argument id cannot be None or empty."))
  else
    let kwargs2 := fix_job_def kwargs
    let e2 := s.engine.modify_job id jobstore kwargs2
    ({ s with engine := e2 }, Except.ok (e2.get_job id jobstore))

/-- `APScheduler.run_job(id, jobstore)`: looks the job up in the engine;
raises `LookupError(id)` when absent, otherwise invokes
`job.func(*job.args, **job.kwargs)` synchronously. The second component
is the list of callable invocations performed. -/
def run_job (s : SchedulerState) (id : String) (jobstore : Option String) :
    Except SchedError Unit × List Call :=
  match s.engine.get_job id jobstore with
  | none => (Except.error (SchedError.lookupError id), [])
  | some job => (Except.ok (), [{ func := job.func, args := job.args, kwargs := job.kwargs }])

/-- One option entry for `Engine.configure`: `[(optKey, v)]` when the
configuration key is present with a truthy value, otherwise nothing (the
`x = config.get(K)` / `if x: options[k] = x` pattern of `__load_config`). -/
def cfgOption (cfg : Config) (cfgKey optKey : String) : List (String × ConfigValue) :=
  match truthyGet cfg cfgKey with
  | some v => [(optKey, v)]
  | none => []

/-- `APScheduler.__load_config`: forwards jobstores, executors,
job_defaults and timezone (when present and truthy) to the engine's
`configure`, and consumes `SCHEDULER_ALLOWED_HOSTS` and
`SCHEDULER_VIEWS_ENABLED` locally. The model assumes the two local keys
are well-typed (a host list and a boolean) when present. -/
def load_config (s : SchedulerState) (cfg : Config) : SchedulerState :=
  let options :=
    cfgOption cfg "SCHEDULER_JOBSTORES" "jobstores"
      ++ cfgOption cfg "SCHEDULER_EXECUTORS" "executors"
      ++ cfgOption cfg "SCHEDULER_JOB_DEFAULTS" "job_defaults"
      ++ cfgOption cfg "SCHEDULER_TIMEZONE" "timezone"
  let e2 := s.engine.configure options
  let ah :=
    match Config.getv cfg "SCHEDULER_ALLOWED_HOSTS" with
    | some (ConfigValue.hosts hs) => hs
    | some _ => s.allowed_hosts
    | none => s.allowed_hosts
  let ve :=
    match Config.getv cfg "SCHEDULER_VIEWS_ENABLED" with
    | some (ConfigValue.prim (Prim.pbool b)) => b
    | some _ => s.views_enabled
    | none => s.views_enabled
  { s with engine := e2, allowed_hosts := ah, views_enabled := ve }

/-- `for job in jobs: self.add_job(**job)` — sequentially add the
entries, stopping at (and propagating) the first validation failure. -/
def addAll (s : SchedulerState) (entries : List JobEntry) :
    SchedulerState × Except SchedError Unit :=
  match entries with
  | [] => (s, Except.ok ())
  | j :: rest =>
    match APScheduler.add_job s j.id j.func j.kwargs with
    | (s2, Except.error e) => (s2, Except.error e)
    | (s2, Except.ok _) => addAll s2 rest

/-- `jobs = config.get('SCHEDULER_JOBS'); if not jobs: jobs =
config.get('JOBS')`: the chosen job-list source, `none` when neither key
holds a truthy value. -/
def chosenSource (cfg : Config) : Option ConfigValue :=
  match truthyGet cfg "SCHEDULER_JOBS" with
  | some v => some v
  | none => truthyGet cfg "JOBS"

/-- `APScheduler.__load_jobs`: adds every entry of the chosen job list. -/
def load_jobs (s : SchedulerState) (cfg : Config) :
    SchedulerState × Except SchedError Unit :=
  match chosenSource cfg with
  | some (ConfigValue.jobList js) => addAll s js
  | _ => (s, Except.ok ())

end APScheduler

/-- The handle passed to `init_app`: either a Flask application (carrying
its configuration mapping) or an object of some other type. -/
inductive AppHandle where
  | flask (config : Config)
  | notFlask (tag : String)
  deriving DecidableEq, Repr

namespace APScheduler

/-- `APScheduler.init_app(app)`: raises a type error on a non-Flask
handle; otherwise binds the app, loads the configuration, loads the
predeclared jobs, and registers the HTTP routes when views are enabled. -/
def init_app (s : SchedulerState) (app : AppHandle) :
    SchedulerState × Except SchedError Unit :=
  match app with
  | AppHandle.notFlask _ =>
      (s, Except.error (SchedError.typeConfigError "app must be a Flask application"))
  | AppHandle.flask cfg =>
      match load_jobs (load_config { s with app := some cfg } cfg) cfg with
      | (s3, Except.error e) => (s3, Except.error e)
      | (s3, Except.ok _) =>
          if s3.views_enabled then ({ s3 with routesRegistered := true }, Except.ok ())
          else (s3, Except.ok ())

end APScheduler

/-- The job record `add_job` makes the engine create for a given id, func
and kwargs: name defaulted via `kwargs.get('name') or id`, kwargs
normalized by `fix_job_def`. -/
def mkAddedJob (id : String) (func : Value) (kw : Kwargs) : Job :=
  { id := id,
    name := pyOr (Kwargs.getd kw "name") (Value.prim (Prim.pstr id)),
    func := func, args := [], kwargs := [],
    defn := fix_job_def kw }

/-- The failure `add_job(**entry)` raises on a failing entry: the id
check precedes the func check, which precedes the duplicate-`name`
keyword `TypeError` at the engine call site. -/
def errOf (j : JobEntry) : SchedError :=
  if j.id = "" then SchedError.argumentError "Argument id cannot be None."
  else if j.func.truthy = false then SchedError.argumentError "Argument func cannot be None."
  else SchedError.typeError dupNameMsg

/-! Concrete fixtures used by witnesses and counterexamples. -/

/-- A fresh engine with no jobs and no start calls. -/
def engine0 : Engine := { jobs := [], startCalls := 0, running := false, options := [] }

/-- A freshly constructed facade bound to `engine0`. -/
def baseState : SchedulerState :=
  { engine := engine0, allowed_hosts := ["*"], host_name := "this-host",
    views_enabled := false, app := none, routesRegistered := false }

/-- Allow-list naming a different host than ours. -/
def gateSkipState : SchedulerState := { baseState with allowed_hosts := ["other-host"] }

/-- Allow-list naming exactly our host. -/
def gateRunState : SchedulerState := { baseState with allowed_hosts := ["this-host"] }

/-- Empty allow-list. -/
def emptyHostsState : SchedulerState := { baseState with allowed_hosts := [] }

/-- A stored job with nontrivial args and kwargs. -/
def job1 : Job :=
  { id := "present-id", name := Value.prim (Prim.pstr "present-id"),
    func := Value.prim (Prim.pstr "mod:f"), args := [Prim.pnat 1],
    kwargs := [("k", Prim.pstr "v")], defn := [] }

/-- A facade whose engine holds exactly `job1`. -/
def runState : SchedulerState := { baseState with engine := { engine0 with jobs := [job1] } }

/-- Predeclared entry `{"id":"a","func":"mod:f"}`. -/
def jobEntryA : JobEntry := { id := "a", func := Value.prim (Prim.pstr "mod:f"), kwargs := [] }

/-- Predeclared entry `{"id":"b","func":"mod:g","trigger":"interval","seconds":5}`. -/
def jobEntryB : JobEntry :=
  { id := "b", func := Value.prim (Prim.pstr "mod:g"),
    kwargs := [("trigger", Value.prim (Prim.pstr "interval")), ("seconds", Value.prim (Prim.pnat 5))] }

/-- Configuration declaring the two example jobs under SCHEDULER_JOBS. -/
def cfgJobs : Config := [("SCHEDULER_JOBS", ConfigValue.jobList [jobEntryA, jobEntryB])]

/-- SCHEDULER_JOBS present but empty, with a fallback entry under JOBS. -/
def cfgFallback : Config :=
  [("SCHEDULER_JOBS", ConfigValue.jobList []),
   ("JOBS", ConfigValue.jobList [{ id := "from-jobs", func := Value.prim (Prim.pstr "mod:f"), kwargs := [] }])]

/-- SCHEDULER_TIMEZONE present but bound to the falsy empty string. -/
def cfgFalsyTz : Config := [("SCHEDULER_TIMEZONE", ConfigValue.prim (Prim.pstr ""))]

/-- A configuration exercising forwarded and locally-consumed keys. -/
def cfgFull : Config :=
  [("SCHEDULER_JOBSTORES", ConfigValue.dict [("default", Prim.pstr "memory")]),
   ("SCHEDULER_TIMEZONE", ConfigValue.prim (Prim.pstr "UTC")),
   ("SCHEDULER_ALLOWED_HOSTS", ConfigValue.hosts ["node-1"]),
   ("SCHEDULER_VIEWS_ENABLED", ConfigValue.prim (Prim.pbool true))]

/-- Kwargs with a string trigger and one trigger field. -/
def kwTriggerEx : Kwargs :=
  [("trigger", Value.prim (Prim.pstr "interval")), ("seconds", Value.prim (Prim.pnat 5))]

/-! Helper lemmas. -/

/-- Without a string-valued trigger, `fix_job_def` leaves the mapping
unmodified. -/
theorem fix_job_def_of_not_str_trigger (kw : Kwargs) (h : hasStrTrigger kw = false) :
    fix_job_def kw = kw := by
  unfold hasStrTrigger at h
  unfold fix_job_def
  cases hl : lookupKw kw "trigger" with
  | none => rfl
  | some v =>
    cases v with
    | prim p =>
      cases p with
      | pstr t => rw [hl] at h; simp at h
      | pnat n => rfl
      | pbool b => rfl
      | pnone => rfl
    | trig ty fs => rfl

/-- With a string-valued trigger, `fix_job_def` collapses the mapping to
the single trigger binding, so no `name` binding survives. -/
theorem fix_job_def_name_of_str_trigger (kw : Kwargs) (h : hasStrTrigger kw = true) :
    lookupKw (fix_job_def kw) "name" = none := by
  unfold hasStrTrigger at h
  unfold fix_job_def
  cases hl : lookupKw kw "trigger" with
  | none => rw [hl] at h; simp at h
  | some v =>
    cases v with
    | prim p =>
      cases p with
      | pstr t => simp [lookupKw]
      | pnat n => rw [hl] at h; simp at h
      | pbool b => rw [hl] at h; simp at h
      | pnone => rw [hl] at h; simp at h
    | trig ty fs => rw [hl] at h; simp at h

/-- A mapping without a `name` binding has none after normalization
either. -/
theorem fix_job_def_name_absent (kw : Kwargs) (h : lookupKw kw "name" = none) :
    lookupKw (fix_job_def kw) "name" = none := by
  cases ht : hasStrTrigger kw with
  | true => exact fix_job_def_name_of_str_trigger kw ht
  | false => rw [fix_job_def_of_not_str_trigger kw ht]; exact h

/-- Successful `add_job` appends exactly `mkAddedJob id func kw` and
returns it; success requires that no `name` binding survives
normalization. -/
theorem add_job_ok_shape (s : SchedulerState) (id : String) (func : Value) (kw : Kwargs)
    (h1 : ¬ id = "") (h2 : func.truthy = true)
    (h3 : lookupKw (fix_job_def kw) "name" = none) :
    APScheduler.add_job s id func kw =
      ({ s with engine := { s.engine with jobs := s.engine.jobs ++ [mkAddedJob id func kw] } },
        Except.ok (mkAddedJob id func kw)) := by
  simp [APScheduler.add_job, h1, h2, h3, Engine.add_job, mkAddedJob]

/-- A failing `add_job` input returns the state unchanged with the
failure, which depends only on the arguments, not the state. -/
theorem add_job_invalid (s : SchedulerState) (j : JobEntry)
    (h : j.id = "" ∨ j.func.truthy = false ∨
      (lookupKw (fix_job_def j.kwargs) "name").isSome = true) :
    APScheduler.add_job s j.id j.func j.kwargs = (s, Except.error (errOf j)) := by
  by_cases h1 : j.id = ""
  · simp [APScheduler.add_job, errOf, h1]
  · by_cases h2 : j.func.truthy = false
    · simp [APScheduler.add_job, errOf, h1, h2]
    · have h2t : j.func.truthy = true := by
        cases hf : j.func.truthy
        · exact absurd hf h2
        · rfl
      have h3 : (lookupKw (fix_job_def j.kwargs) "name").isSome = true := by tauto
      simp [APScheduler.add_job, errOf, h1, h2t, h3]

/-! Claim theorems. -/

/-- C1: For the start operation: if `host_name` is not a member of
`allowed_hosts` and `allowed_hosts` does not contain the wildcard `"*"`,
`start` returns without invoking the engine's start operation and without
raising any exception (the state, hence the engine, is unchanged; `start`
is total in the model, so no exception can arise); conversely, if
`allowed_hosts` contains `"*"` (regardless of `host_name`) or `host_name`
is a member of `allowed_hosts`, `start` invokes the engine's start
operation. -/
theorem start_host_gate (s : SchedulerState) :
    (s.host_name ∉ s.allowed_hosts ∧ "*" ∉ s.allowed_hosts →
      (APScheduler.start s).1 = s) ∧
    ("*" ∈ s.allowed_hosts ∨ s.host_name ∈ s.allowed_hosts →
      (APScheduler.start s).1 = { s with engine := s.engine.start }) := by
  constructor
  · intro h
    simp [APScheduler.start, h.1, h.2]
  · intro h
    have hcond : ¬ (s.host_name ∉ s.allowed_hosts ∧ "*" ∉ s.allowed_hosts) := by
      rcases h with h | h
      · exact fun hc => hc.2 h
      · exact fun hc => hc.1 h
    simp [APScheduler.start, hcond]

/-- C1 witness: with allow-list `["other-host"]` and host `"this-host"`
the engine is untouched; with allow-list `["this-host"]` the engine's
start runs. -/
theorem start_host_gate_witness :
    (APScheduler.start gateSkipState).1 = gateSkipState ∧
    (APScheduler.start gateRunState).1 = { gateRunState with engine := gateRunState.engine.start } :=
  ⟨(start_host_gate gateSkipState).1 (by decide),
   (start_host_gate gateRunState).2 (by decide)⟩

/-- C2 counterexample: with an empty allow-list, `start` does log the
warning, but it does NOT call through to the engine's start: the state is
returned unchanged (`startCalls` stays 0), because the not-in-list early
return also fires on the empty list. -/
theorem start_empty_hosts_counterexample :
    emptyHostsState.allowed_hosts = [] ∧
    (APScheduler.start emptyHostsState).2.contains emptyHostsMsg = true ∧
    (APScheduler.start emptyHostsState).1 = emptyHostsState ∧
    emptyHostsState.engine.startCalls = 0 := by decide

/-- C2 (amended): if `allowed_hosts` is empty, `start` logs the warning
and then takes the not-allowed early return — the engine's start is NOT
invoked, since neither `host_name` nor `"*"` is a member of the empty
list. -/
theorem start_empty_hosts (s : SchedulerState) (h : s.allowed_hosts = []) :
    (APScheduler.start s).1 = s ∧
    (APScheduler.start s).2 = [emptyHostsMsg, notAllowedMsg s] := by
  have h1 : s.host_name ∉ s.allowed_hosts := by simp [h]
  have h2 : "*" ∉ s.allowed_hosts := by simp [h]
  constructor <;> simp [APScheduler.start, h, h1, h2]

/-- C2 witness: the amended statement at the concrete empty-allow-list
state. -/
theorem start_empty_hosts_witness :
    (APScheduler.start emptyHostsState).1 = emptyHostsState ∧
    (APScheduler.start emptyHostsState).2 = [emptyHostsMsg, notAllowedMsg emptyHostsState] :=
  start_empty_hosts emptyHostsState (by decide)

/-- C4: `run_job` with an id the engine has no job for raises
`LookupError` and performs no callable invocation; with an existing job it
performs exactly one synchronous invocation, with the job's stored func,
args and kwargs. -/
theorem run_job_spec (s : SchedulerState) (id : String) (jobstore : Option String) :
    (s.engine.get_job id jobstore = none →
      APScheduler.run_job s id jobstore = (Except.error (SchedError.lookupError id), [])) ∧
    (∀ job, s.engine.get_job id jobstore = some job →
      APScheduler.run_job s id jobstore =
        (Except.ok (), [{ func := job.func, args := job.args, kwargs := job.kwargs }])) := by
  constructor
  · intro h; simp [APScheduler.run_job, h]
  · intro job h; simp [APScheduler.run_job, h]

/-- C4 witness: `run_job("missing-id")` fails with `LookupError`;
`run_job("present-id")` invokes `job1`'s callable once with its stored
args and kwargs. -/
theorem run_job_spec_witness :
    APScheduler.run_job runState "missing-id" none =
      (Except.error (SchedError.lookupError "missing-id"), []) ∧
    APScheduler.run_job runState "present-id" none =
      (Except.ok (), [{ func := job1.func, args := job1.args, kwargs := job1.kwargs }]) :=
  ⟨(run_job_spec runState "missing-id" none).1 (by decide),
   (run_job_spec runState "present-id" none).2 job1 (by decide)⟩

/-- C5: `modify_job` with an empty id raises the argument error and
returns the state unchanged — no engine operation has run. -/
theorem modify_job_empty_id (s : SchedulerState) (jobstore : Option String) (kw : Kwargs) :
    APScheduler.modify_job s "" jobstore kw =
      (s, Except.error (SchedError.argumentError "Argument id cannot be None or empty.")) := by
  simp [APScheduler.modify_job]

/-- `primWrap` undoes `primFields` on a mapping whose values are all
primitive. -/
theorem primWrap_primFields (l : Kwargs) (h : ∀ kv ∈ l, kv.2.isPrim = true) :
    primWrap (primFields l) = l := by
  induction l with
  | nil => rfl
  | cons kv rest ih =>
    obtain ⟨k, v⟩ := kv
    cases v with
    | prim p =>
        have hrest := ih (fun x hx => h x (List.mem_cons_of_mem _ hx))
        simpa [primFields, primWrap] using hrest
    | trig ty fs =>
        have hbad := h (k, Value.trig ty fs) (List.mem_cons_self _ _)
        simp [Value.isPrim] at hbad

/-- C3 counterexample: `add_job` with a non-empty id and a truthy func
does NOT always succeed — when the kwargs carry a `name` binding (and no
string trigger consumes it), the engine call passes the `name` keyword
twice and raises `TypeError` instead of returning a job. -/
theorem add_job_validation_counterexample :
    APScheduler.add_job baseState "x" (Value.prim (Prim.pstr "mod:f"))
        [("name", Value.prim (Prim.pstr "display"))] =
      (baseState, Except.error (SchedError.typeError dupNameMsg)) := by rfl

/-- C3 (amended): `add_job` with an empty/falsy id, or a falsy func,
raises the argument error with the state (hence the engine) unchanged;
with a non-empty id, a truthy func and no `name` key in the kwargs it
succeeds: the engine creates and returns a job whose id and name both
equal the given id; with a non-empty id and truthy func but a `name`
binding that survives normalization, the engine call raises `TypeError`
(duplicate `name` keyword) with the state unchanged. -/
theorem add_job_validation (s : SchedulerState) (id : String) (func : Value) (kw : Kwargs) :
    (id = "" →
      APScheduler.add_job s id func kw =
        (s, Except.error (SchedError.argumentError "Argument id cannot be None."))) ∧
    (id ≠ "" → func.truthy = false →
      APScheduler.add_job s id func kw =
        (s, Except.error (SchedError.argumentError "Argument func cannot be None."))) ∧
    (id ≠ "" → func.truthy = true → lookupKw kw "name" = none →
      ∃ job, (APScheduler.add_job s id func kw).2 = Except.ok job ∧
        (APScheduler.add_job s id func kw).1.engine.jobs = s.engine.jobs ++ [job] ∧
        job.id = id ∧ job.name = Value.prim (Prim.pstr id)) ∧
    (id ≠ "" → func.truthy = true → (lookupKw (fix_job_def kw) "name").isSome = true →
      APScheduler.add_job s id func kw =
        (s, Except.error (SchedError.typeError dupNameMsg))) := by
  refine ⟨?_, ?_, ?_, ?_⟩
  · intro h
    simp [APScheduler.add_job, h]
  · intro h1 h2
    simp [APScheduler.add_job, h1, h2]
  · intro h1 h2 hn
    rw [add_job_ok_shape s id func kw h1 h2 (fix_job_def_name_absent kw hn)]
    refine ⟨mkAddedJob id func kw, rfl, rfl, rfl, ?_⟩
    simp [mkAddedJob, Kwargs.getd, hn, pyOr, Value.truthy, Prim.truthy]
  · intro h1 h2 h3
    simp [APScheduler.add_job, h1, h2, h3]

/-- C3 witness: `add_job(id="", func=f)` and `add_job(id="x", func=None)`
fail with the argument errors; `add_job(id="x", func=f)` with no name in
the kwargs returns a job with id `"x"` and name `"x"`; a surviving name
binding raises the duplicate-keyword `TypeError`. -/
theorem add_job_validation_witness :
    APScheduler.add_job baseState "" (Value.prim (Prim.pstr "mod:f")) [] =
      (baseState, Except.error (SchedError.argumentError "Argument id cannot be None.")) ∧
    APScheduler.add_job baseState "x" (Value.prim Prim.pnone) [] =
      (baseState, Except.error (SchedError.argumentError "Argument func cannot be None.")) ∧
    (∃ job, (APScheduler.add_job baseState "x" (Value.prim (Prim.pstr "mod:f")) []).2 = Except.ok job ∧
      (APScheduler.add_job baseState "x" (Value.prim (Prim.pstr "mod:f")) []).1.engine.jobs =
        baseState.engine.jobs ++ [job] ∧
      job.id = "x" ∧ job.name = Value.prim (Prim.pstr "x")) ∧
    APScheduler.add_job baseState "x" (Value.prim (Prim.pstr "mod:f"))
        [("name", Value.prim (Prim.pstr "n1"))] =
      (baseState, Except.error (SchedError.typeError dupNameMsg)) :=
  ⟨(add_job_validation baseState "" (Value.prim (Prim.pstr "mod:f")) []).1 rfl,
   (add_job_validation baseState "x" (Value.prim Prim.pnone) []).2.1 (by decide) (by decide),
   (add_job_validation baseState "x" (Value.prim (Prim.pstr "mod:f")) []).2.2.1
     (by decide) (by decide) (by decide),
   (add_job_validation baseState "x" (Value.prim (Prim.pstr "mod:f"))
       [("name", Value.prim (Prim.pstr "n1"))]).2.2.2
     (by decide) (by decide) (by decide)⟩

/-- C10 counterexample: `add_job(id="x", func=f, name="")` does not
create a job named `"x"` — the falsy `name` binding stays in the kwargs
(no string trigger consumes it), so the engine call raises the
duplicate-keyword `TypeError` and no job is created at all. -/
theorem add_job_falsy_name_counterexample :
    (APScheduler.add_job baseState "x" (Value.prim (Prim.pstr "mod:f"))
        [("name", Value.prim (Prim.pstr ""))]).2 =
      Except.error (SchedError.typeError dupNameMsg) := by rfl

/-- C10 (amended): for an `add_job` call whose kwargs contain a `name`
key, what happens depends on whether a string-valued trigger is also
present. Without one the `name` binding survives `fix_job_def` and the
engine call raises `TypeError` (the `name` keyword is passed twice), so
no job is created; with one, `fix_job_def` consumes the `name` key into
the trigger structure and the job is created, named by the given id when
the supplied name is falsy and by the supplied name when it is truthy. -/
theorem add_job_falsy_name (s : SchedulerState) (id : String) (func : Value) (kw : Kwargs)
    (v : Value) :
    id ≠ "" → func.truthy = true → lookupKw kw "name" = some v →
    (hasStrTrigger kw = false →
      APScheduler.add_job s id func kw = (s, Except.error (SchedError.typeError dupNameMsg))) ∧
    (hasStrTrigger kw = true →
      ∃ job, (APScheduler.add_job s id func kw).2 = Except.ok job ∧
        (v.truthy = false → job.name = Value.prim (Prim.pstr id)) ∧
        (v.truthy = true → job.name = v)) := by
  intro h1 h2 h3
  constructor
  · intro ht
    have hname : (lookupKw (fix_job_def kw) "name").isSome = true := by
      rw [fix_job_def_of_not_str_trigger kw ht, h3]; rfl
    simp [APScheduler.add_job, h1, h2, hname]
  · intro ht
    rw [add_job_ok_shape s id func kw h1 h2 (fix_job_def_name_of_str_trigger kw ht)]
    refine ⟨mkAddedJob id func kw, rfl, ?_, ?_⟩ <;> intro hv <;>
      simp [mkAddedJob, Kwargs.getd, h3, pyOr, hv]

/-- C10 witness: `name=""` alone raises the duplicate-keyword
`TypeError`; `name=""` together with `trigger="interval"` yields a job
named `"x"`. -/
theorem add_job_falsy_name_witness :
    APScheduler.add_job baseState "x" (Value.prim (Prim.pstr "mod:f"))
        [("name", Value.prim (Prim.pstr ""))] =
      (baseState, Except.error (SchedError.typeError dupNameMsg)) ∧
    (∃ job,
      (APScheduler.add_job baseState "x" (Value.prim (Prim.pstr "mod:f"))
        [("name", Value.prim (Prim.pstr "")), ("trigger", Value.prim (Prim.pstr "interval"))]).2 =
          Except.ok job ∧
      ((Value.prim (Prim.pstr "")).truthy = false → job.name = Value.prim (Prim.pstr "x")) ∧
      ((Value.prim (Prim.pstr "")).truthy = true → job.name = Value.prim (Prim.pstr ""))) :=
  ⟨(add_job_falsy_name baseState "x" (Value.prim (Prim.pstr "mod:f"))
      [("name", Value.prim (Prim.pstr ""))] (Value.prim (Prim.pstr ""))
      (by decide) (by decide) (by decide)).1 (by decide),
   (add_job_falsy_name baseState "x" (Value.prim (Prim.pstr "mod:f"))
      [("name", Value.prim (Prim.pstr "")), ("trigger", Value.prim (Prim.pstr "interval"))]
      (Value.prim (Prim.pstr ""))
      (by decide) (by decide) (by decide)).2 (by decide)⟩

/-- C6 (spec-modelled normalizer): for every kwargs mapping whose
`"trigger"` key holds a string `t` (and whose other top-level values are
primitives), normalization produces the single structured trigger whose
discriminator is `t` and whose fields are exactly the other top-level
bindings originally present — no trigger-adjacent top-level key is left
behind; a mapping whose `"trigger"` is absent or already structured is
returned unmodified. -/
theorem fix_job_def_spec (kw : Kwargs) (t : String) :
    (lookupKw kw "trigger" = some (Value.prim (Prim.pstr t)) →
     (∀ kv ∈ kw, kv.1 ≠ "trigger" → kv.2.isPrim = true) →
      ∃ fs, fix_job_def kw = [("trigger", Value.trig t fs)] ∧
        primWrap fs = removeKey kw "trigger") ∧
    (lookupKw kw "trigger" = none → fix_job_def kw = kw) ∧
    (∀ ty fields, lookupKw kw "trigger" = some (Value.trig ty fields) → fix_job_def kw = kw) := by
  refine ⟨?_, ?_, ?_⟩
  · intro ht hall
    refine ⟨primFields (removeKey kw "trigger"), by simp [fix_job_def, ht], ?_⟩
    apply primWrap_primFields
    intro kv hkv
    have hmem := List.mem_filter.mp hkv
    exact hall kv hmem.1 (by simpa using hmem.2)
  · intro ht; simp [fix_job_def, ht]
  · intro ty fields ht; simp [fix_job_def, ht]

/-- C6 witness: `{"trigger":"interval","seconds":5}` becomes the single
structured interval trigger carrying `seconds`; a mapping without a
trigger key is unchanged. -/
theorem fix_job_def_spec_witness :
    (∃ fs, fix_job_def kwTriggerEx = [("trigger", Value.trig "interval" fs)] ∧
      primWrap fs = removeKey kwTriggerEx "trigger") ∧
    fix_job_def [("seconds", Value.prim (Prim.pnat 5))] =
      [("seconds", Value.prim (Prim.pnat 5))] :=
  ⟨(fix_job_def_spec kwTriggerEx "interval").1 (by decide) (by decide),
   (fix_job_def_spec [("seconds", Value.prim (Prim.pnat 5))] "interval").2.1 (by decide)⟩

/-- Adding a list of entries that all pass validation and carry no
surviving `name` binding succeeds, leaves the pre-existing jobs in place,
and puts a job with each entry's id into the engine. -/
theorem addAll_valid (js : List JobEntry) :
    ∀ s : SchedulerState,
    (∀ j ∈ js, j.id ≠ "" ∧ j.func.truthy = true ∧
      lookupKw (fix_job_def j.kwargs) "name" = none) →
    (APScheduler.addAll s js).2 = Except.ok () ∧
    ∃ t, (APScheduler.addAll s js).1.engine.jobs = s.engine.jobs ++ t ∧
      ∀ j ∈ js, ∃ job ∈ t, job.id = j.id := by
  induction js with
  | nil =>
    intro s _
    exact ⟨rfl, [], by simp [APScheduler.addAll], by simp⟩
  | cons j rest ih =>
    intro s h
    obtain ⟨h1, h2, h3⟩ := h j (List.mem_cons_self _ _)
    have hshape := add_job_ok_shape s j.id j.func j.kwargs h1 h2 h3
    have hstep : APScheduler.addAll s (j :: rest) =
        APScheduler.addAll
          { s with engine := { s.engine with jobs := s.engine.jobs ++ [mkAddedJob j.id j.func j.kwargs] } }
          rest := by
      simp [APScheduler.addAll, hshape]
    obtain ⟨hok, t, ht, hmem⟩ :=
      ih { s with engine := { s.engine with jobs := s.engine.jobs ++ [mkAddedJob j.id j.func j.kwargs] } }
        (fun i hi => h i (List.mem_cons_of_mem _ hi))
    refine ⟨hstep ▸ hok, mkAddedJob j.id j.func j.kwargs :: t, ?_, ?_⟩
    · rw [hstep, ht]
      simp
    · intro i hi
      rcases List.mem_cons.mp hi with hEq | hMem
      · exact ⟨mkAddedJob j.id j.func j.kwargs, List.mem_cons_self _ _, by simp [hEq, mkAddedJob]⟩
      · obtain ⟨job, hjt, hjid⟩ := hmem i hMem
        exact ⟨job, List.mem_cons_of_mem _ hjt, hjid⟩

/-- Adding a list whose first failing entry is `j` stops with the exact
failure a direct `add_job` call on `j` raises (the failure depends only
on the entry, not on the accumulated state). -/
theorem addAll_firstInvalid (pre : List JobEntry) :
    ∀ (s : SchedulerState) (j : JobEntry) (rest : List JobEntry),
    (∀ i ∈ pre, i.id ≠ "" ∧ i.func.truthy = true ∧
      lookupKw (fix_job_def i.kwargs) "name" = none) →
    (j.id = "" ∨ j.func.truthy = false ∨
      (lookupKw (fix_job_def j.kwargs) "name").isSome = true) →
    (APScheduler.addAll s (pre ++ j :: rest)).2 = Except.error (errOf j) ∧
    (APScheduler.add_job s j.id j.func j.kwargs).2 = Except.error (errOf j) := by
  induction pre with
  | nil =>
    intro s j rest _ hbad
    have he := add_job_invalid s j hbad
    constructor
    · simp [APScheduler.addAll, he]
    · rw [he]
  | cons i pre ih =>
    intro s j rest hpre hbad
    obtain ⟨h1, h2, h3⟩ := hpre i (List.mem_cons_self _ _)
    have hshape := add_job_ok_shape s i.id i.func i.kwargs h1 h2 h3
    obtain ⟨hrec, _⟩ :=
      ih { s with engine := { s.engine with jobs := s.engine.jobs ++ [mkAddedJob i.id i.func i.kwargs] } }
        j rest (fun x hx => hpre x (List.mem_cons_of_mem _ hx)) hbad
    constructor
    · have hstep : APScheduler.addAll s ((i :: pre) ++ j :: rest) =
          APScheduler.addAll
            { s with engine := { s.engine with jobs := s.engine.jobs ++ [mkAddedJob i.id i.func i.kwargs] } }
            (pre ++ j :: rest) := by
        simp [APScheduler.addAll, hshape]
      rw [hstep]
      exact hrec
    · rw [add_job_invalid s j hbad]

/-- C7 counterexample: `SCHEDULER_JOBS` is present (bound to an empty
list), so per the claim the chosen list is empty and no job should be
added — yet the code falls back to `JOBS` because the first value is
falsy, and the engine ends up holding the `JOBS` entry. -/
theorem load_jobs_fallback_counterexample :
    Config.getv cfgFallback "SCHEDULER_JOBS" = some (ConfigValue.jobList []) ∧
    (APScheduler.load_jobs baseState cfgFallback).1.engine.jobs.map Job.id = ["from-jobs"] := by
  decide

/-- C7 (amended): predeclared-job loading reads the job list from
`SCHEDULER_JOBS`, falling back to `JOBS` when the first key is absent or
bound to a falsy value such as an empty list (first truthy key wins), and
calls `add_job` once per entry of the chosen list: a failing entry
(missing id or func, or a `name` binding that survives normalization and
collides with the explicit `name` keyword) raises the same failure as a
direct `add_job` call, and when all entries pass those checks every entry
ends up in the engine. -/
theorem load_jobs_spec (s : SchedulerState) (cfg : Config) :
    (∀ js, truthyGet cfg "SCHEDULER_JOBS" = some (ConfigValue.jobList js) →
      APScheduler.load_jobs s cfg = APScheduler.addAll s js) ∧
    (truthyGet cfg "SCHEDULER_JOBS" = none →
      ∀ js, truthyGet cfg "JOBS" = some (ConfigValue.jobList js) →
      APScheduler.load_jobs s cfg = APScheduler.addAll s js) ∧
    (∀ js, (∀ j ∈ js, j.id ≠ "" ∧ j.func.truthy = true ∧
        lookupKw (fix_job_def j.kwargs) "name" = none) →
      (APScheduler.addAll s js).2 = Except.ok () ∧
      ∀ j ∈ js, ∃ job ∈ (APScheduler.addAll s js).1.engine.jobs, job.id = j.id) ∧
    (∀ pre j rest, (∀ i ∈ pre, i.id ≠ "" ∧ i.func.truthy = true ∧
        lookupKw (fix_job_def i.kwargs) "name" = none) →
      (j.id = "" ∨ j.func.truthy = false ∨
        (lookupKw (fix_job_def j.kwargs) "name").isSome = true) →
      (APScheduler.addAll s (pre ++ j :: rest)).2 = Except.error (errOf j) ∧
      (APScheduler.add_job s j.id j.func j.kwargs).2 = Except.error (errOf j)) := by
  refine ⟨?_, ?_, ?_, ?_⟩
  · intro js h
    simp [APScheduler.load_jobs, APScheduler.chosenSource, h]
  · intro h0 js h
    simp [APScheduler.load_jobs, APScheduler.chosenSource, h0, h]
  · intro js h
    obtain ⟨hok, t, ht, hmem⟩ := addAll_valid js s h
    refine ⟨hok, ?_⟩
    intro j hj
    obtain ⟨job, hjt, hjid⟩ := hmem j hj
    exact ⟨job, by rw [ht]; exact List.mem_append_right _ hjt, hjid⟩
  · intro pre j rest hpre hbad
    exact addAll_firstInvalid pre s j rest hpre hbad

/-- C7 witness: with `SCHEDULER_JOBS = [a, b]` the chosen list is that
list, and after loading both `"a"` and `"b"` exist in the engine. -/
theorem load_jobs_spec_witness :
    APScheduler.load_jobs baseState cfgJobs = APScheduler.addAll baseState [jobEntryA, jobEntryB] ∧
    ∀ j ∈ [jobEntryA, jobEntryB],
      ∃ job ∈ (APScheduler.addAll baseState [jobEntryA, jobEntryB]).1.engine.jobs, job.id = j.id :=
  ⟨(load_jobs_spec baseState cfgJobs).1 [jobEntryA, jobEntryB] (by decide),
   ((load_jobs_spec baseState cfgJobs).2.2.1 [jobEntryA, jobEntryB] (by decide)).2⟩

/-- Membership in a single configure-option entry. -/
theorem mem_cfgOption (cfg : Config) (ck ok : String) (k : String) (v : ConfigValue) :
    (k, v) ∈ APScheduler.cfgOption cfg ck ok ↔ k = ok ∧ truthyGet cfg ck = some v := by
  unfold APScheduler.cfgOption
  cases h : truthyGet cfg ck with
  | none => simp
  | some w =>
    simp only [List.mem_singleton, Prod.mk.injEq, Option.some.injEq]
    constructor
    · rintro ⟨rfl, rfl⟩; exact ⟨rfl, rfl⟩
    · rintro ⟨rfl, rfl⟩; exact ⟨rfl, rfl⟩

/-- Every binding of a configure-option entry carries the option key. -/
theorem cfgOption_key (cfg : Config) (ck ok : String) (kv : String × ConfigValue)
    (h : kv ∈ APScheduler.cfgOption cfg ck ok) : kv.1 = ok := by
  unfold APScheduler.cfgOption at h
  cases htg : truthyGet cfg ck with
  | none => rw [htg] at h; simp at h
  | some w =>
    rw [htg] at h
    simp at h
    rw [h]

/-- The options `__load_config` passes to the engine's configure. -/
theorem load_config_options (s : SchedulerState) (cfg : Config) :
    (APScheduler.load_config s cfg).engine.options =
      APScheduler.cfgOption cfg "SCHEDULER_JOBSTORES" "jobstores"
        ++ APScheduler.cfgOption cfg "SCHEDULER_EXECUTORS" "executors"
        ++ APScheduler.cfgOption cfg "SCHEDULER_JOB_DEFAULTS" "job_defaults"
        ++ APScheduler.cfgOption cfg "SCHEDULER_TIMEZONE" "timezone" := rfl

/-- C8 counterexample: `SCHEDULER_TIMEZONE` is present in the
configuration (bound to the falsy empty string), yet `__load_config`
forwards nothing to the engine's configure — forwarding requires a truthy
value, not mere presence. -/
theorem load_config_falsy_counterexample :
    Config.getv cfgFalsyTz "SCHEDULER_TIMEZONE" = some (ConfigValue.prim (Prim.pstr "")) ∧
    (APScheduler.load_config baseState cfgFalsyTz).engine.options = [] := by decide

/-- C8 (amended): configuration load forwards each of the four keys
`SCHEDULER_JOBSTORES`, `SCHEDULER_EXECUTORS`, `SCHEDULER_JOB_DEFAULTS`
and `SCHEDULER_TIMEZONE` to the engine's configure exactly when the key
is present with a truthy value (a present falsy value is skipped), and
consumes `SCHEDULER_ALLOWED_HOSTS` and `SCHEDULER_VIEWS_ENABLED` locally
— the forwarded options only ever carry the four engine option names. -/
theorem load_config_spec (s : SchedulerState) (cfg : Config) :
    (∀ v, ("jobstores", v) ∈ (APScheduler.load_config s cfg).engine.options ↔
      truthyGet cfg "SCHEDULER_JOBSTORES" = some v) ∧
    (∀ v, ("executors", v) ∈ (APScheduler.load_config s cfg).engine.options ↔
      truthyGet cfg "SCHEDULER_EXECUTORS" = some v) ∧
    (∀ v, ("job_defaults", v) ∈ (APScheduler.load_config s cfg).engine.options ↔
      truthyGet cfg "SCHEDULER_JOB_DEFAULTS" = some v) ∧
    (∀ v, ("timezone", v) ∈ (APScheduler.load_config s cfg).engine.options ↔
      truthyGet cfg "SCHEDULER_TIMEZONE" = some v) ∧
    (∀ kv ∈ (APScheduler.load_config s cfg).engine.options,
      kv.1 = "jobstores" ∨ kv.1 = "executors" ∨ kv.1 = "job_defaults" ∨ kv.1 = "timezone") ∧
    (∀ hs, Config.getv cfg "SCHEDULER_ALLOWED_HOSTS" = some (ConfigValue.hosts hs) →
      (APScheduler.load_config s cfg).allowed_hosts = hs) ∧
    (∀ b, Config.getv cfg "SCHEDULER_VIEWS_ENABLED" = some (ConfigValue.prim (Prim.pbool b)) →
      (APScheduler.load_config s cfg).views_enabled = b) := by
  refine ⟨?_, ?_, ?_, ?_, ?_, ?_, ?_⟩
  · intro v
    rw [load_config_options]
    simp [List.mem_append, mem_cfgOption]
  · intro v
    rw [load_config_options]
    simp [List.mem_append, mem_cfgOption]
  · intro v
    rw [load_config_options]
    simp [List.mem_append, mem_cfgOption]
  · intro v
    rw [load_config_options]
    simp [List.mem_append, mem_cfgOption]
  · intro kv hkv
    rw [load_config_options] at hkv
    rcases List.mem_append.mp hkv with hkv | hkv
    · rcases List.mem_append.mp hkv with hkv | hkv
      · rcases List.mem_append.mp hkv with hkv | hkv
        · exact Or.inl (cfgOption_key _ _ _ _ hkv)
        · exact Or.inr (Or.inl (cfgOption_key _ _ _ _ hkv))
      · exact Or.inr (Or.inr (Or.inl (cfgOption_key _ _ _ _ hkv)))
    · exact Or.inr (Or.inr (Or.inr (cfgOption_key _ _ _ _ hkv)))
  · intro hs h
    simp [APScheduler.load_config, h]
  · intro b h
    simp [APScheduler.load_config, h]

/-- C8 witness: a truthy jobstores entry is forwarded, and the allow-list
and views flag are consumed locally. -/
theorem load_config_spec_witness :
    (("jobstores", ConfigValue.dict [("default", Prim.pstr "memory")]) ∈
        (APScheduler.load_config baseState cfgFull).engine.options ↔
      truthyGet cfgFull "SCHEDULER_JOBSTORES" =
        some (ConfigValue.dict [("default", Prim.pstr "memory")])) ∧
    (APScheduler.load_config baseState cfgFull).allowed_hosts = ["node-1"] ∧
    (APScheduler.load_config baseState cfgFull).views_enabled = true :=
  ⟨(load_config_spec baseState cfgFull).1 (ConfigValue.dict [("default", Prim.pstr "memory")]),
   (load_config_spec baseState cfgFull).2.2.2.2.2.1 ["node-1"] (by decide),
   (load_config_spec baseState cfgFull).2.2.2.2.2.2 true (by decide)⟩

/-- `add_job` only touches the engine's job list: the bound app and the
configure options are unchanged. -/
theorem add_job_frame (s : SchedulerState) (id : String) (func : Value) (kw : Kwargs) :
    (APScheduler.add_job s id func kw).1.app = s.app ∧
    (APScheduler.add_job s id func kw).1.engine.options = s.engine.options := by
  by_cases h1 : id = ""
  · simp [APScheduler.add_job, h1]
  · by_cases h2 : func.truthy = false
    · simp [APScheduler.add_job, h1, h2]
    · have h2t : func.truthy = true := by
        cases hf : func.truthy
        · exact absurd hf h2
        · rfl
      by_cases h3 : (lookupKw (fix_job_def kw) "name").isSome = true
      · simp [APScheduler.add_job, h1, h2t, h3]
      · have h3f : lookupKw (fix_job_def kw) "name" = none := by
          cases hl : lookupKw (fix_job_def kw) "name" with
          | none => rfl
          | some v => rw [hl] at h3; simp at h3
        rw [add_job_ok_shape s id func kw h1 h2t h3f]
        exact ⟨rfl, rfl⟩

/-- `addAll` preserves the bound app and the configure options. -/
theorem addAll_frame (js : List JobEntry) :
    ∀ s : SchedulerState,
      (APScheduler.addAll s js).1.app = s.app ∧
      (APScheduler.addAll s js).1.engine.options = s.engine.options := by
  induction js with
  | nil => intro s; exact ⟨rfl, rfl⟩
  | cons j rest ih =>
    intro s
    unfold APScheduler.addAll
    cases hr : APScheduler.add_job s j.id j.func j.kwargs with
    | mk s2 r =>
      have hfr := add_job_frame s j.id j.func j.kwargs
      rw [hr] at hfr
      cases r with
      | error e => exact hfr
      | ok job =>
        obtain ⟨ha, ho⟩ := ih s2
        exact ⟨ha.trans hfr.1, ho.trans hfr.2⟩

/-- `__load_jobs` preserves the bound app and the configure options. -/
theorem load_jobs_frame (s : SchedulerState) (cfg : Config) :
    (APScheduler.load_jobs s cfg).1.app = s.app ∧
    (APScheduler.load_jobs s cfg).1.engine.options = s.engine.options := by
  unfold APScheduler.load_jobs
  cases APScheduler.chosenSource cfg with
  | none => exact ⟨rfl, rfl⟩
  | some v =>
    cases v with
    | jobList js => exact addAll_frame js s
    | prim p => exact ⟨rfl, rfl⟩
    | dict es => exact ⟨rfl, rfl⟩
    | hosts hs => exact ⟨rfl, rfl⟩

/-- C9: `init_app` with a handle that is not a Flask application raises
the type-configuration error before binding, loading configuration or
loading jobs (the state is returned unchanged); with a Flask handle it
binds the app, its engine options are those of the configuration load,
and its job list and outcome are those of the job load run after the
configuration load. -/
theorem init_app_spec (s : SchedulerState) :
    (∀ tag, APScheduler.init_app s (AppHandle.notFlask tag) =
      (s, Except.error (SchedError.typeConfigError "app must be a Flask application"))) ∧
    (∀ cfg,
      (APScheduler.init_app s (AppHandle.flask cfg)).1.app = some cfg ∧
      (APScheduler.init_app s (AppHandle.flask cfg)).1.engine.options =
        (APScheduler.load_config s cfg).engine.options ∧
      (APScheduler.init_app s (AppHandle.flask cfg)).1.engine.jobs =
        (APScheduler.load_jobs (APScheduler.load_config { s with app := some cfg } cfg) cfg).1.engine.jobs ∧
      (APScheduler.init_app s (AppHandle.flask cfg)).2 =
        (APScheduler.load_jobs (APScheduler.load_config { s with app := some cfg } cfg) cfg).2) := by
  constructor
  · intro tag; rfl
  · intro cfg
    cases hr : APScheduler.load_jobs (APScheduler.load_config { s with app := some cfg } cfg) cfg with
    | mk s3 r =>
      have hfr := load_jobs_frame (APScheduler.load_config { s with app := some cfg } cfg) cfg
      rw [hr] at hfr
      have happ : s3.app = some cfg := hfr.1
      have hopts : s3.engine.options = (APScheduler.load_config s cfg).engine.options := by
        rw [hfr.2, load_config_options, load_config_options]
      cases r with
      | error e =>
        simp only [APScheduler.init_app, hr]
        exact ⟨happ, hopts, trivial, trivial⟩
      | ok u =>
        cases u
        cases hv : s3.views_enabled with
        | true =>
          simp only [APScheduler.init_app, hr, hv, if_true]
          exact ⟨happ, hopts, trivial, trivial⟩
        | false =>
          simp only [APScheduler.init_app, hr, hv, Bool.false_eq_true, if_false]
          exact ⟨happ, hopts, trivial, trivial⟩

end FlaskAPScheduler
